import Mathlib

/-!
Verification development for the mango MCP tool-server repository.

Shallow embedding of the stdio JSON-RPC dispatch loop shared by the tool
servers (src/mcp/sleep/sleep_mcp_server.py, src/mcp/grok-proxy/
grok_proxy_mcp_server.py, src/mcp/gpt5-proxy/gpt5_proxy_mcp_server.py),
of the sleep server's process-monitoring tools, of the grok proxy's
circuit breaker / resilient client, of the gpt5 proxy's token-budget
calculation, and of the ask-llm output manager
(src/tmux/ask-llm-output-manager.py).

Modelling conventions:
- Python values decoded from JSON are modelled by the inductive `Json`
  below; Python's json.loads (a stdlib function, not repository code) is
  an abstract parameter `json_loads : String -> Option Json` of the
  server loop, returning none exactly when the source's receive_message
  returns None for a non-empty line (json.JSONDecodeError).
- Raising an exception is modelled by `Except.error msg` carrying str(e).
- Wall-clock time (datetime.now().timestamp(), time.time()) is a rational
  parameter supplied by the environment; sleeping and os.kill calls are
  recorded in an effect log so that theorems can state that no sleep or
  no signal other than 0 happened.
- Python floats in this code hold small exact decimals only; they are
  modelled as rationals.
-/

/-- A decoded JSON value (the result of Python's json.loads). Python
distinguishes int and float results, and bool is a subclass of int. -/
inductive Json where
  | null
  | bool (b : Bool)
  | int (n : Int)
  | float (q : ℚ)
  | str (s : String)
  | arr (elems : List Json)
  | obj (fields : List (String × Json))

/-- First-match lookup in an object's field list (json.loads never
produces duplicate keys, so this matches Python dict lookup). -/
def lookupField : List (String × Json) → String → Option Json
  | [], _ => none
  | (k, v) :: rest, key => if k = key then some v else lookupField rest key

/-- Python `d.get(key)` on a value known to be a dict: none when absent. -/
def jsonLookup (j : Json) (key : String) : Option Json :=
  match j with
  | Json.obj fs => lookupField fs key
  | _ => none

/-- Python `x.get(key)` where x may not be a dict: a non-dict raises
AttributeError (message approximated; no claim depends on its text). -/
def pyGet (j : Json) (key : String) : Except String (Option Json) :=
  match j with
  | Json.obj fs => Except.ok (lookupField fs key)
  | _ => Except.error "AttributeError: object has no attribute get"

/-- Python str() of a decoded JSON value, used by f-strings such as
f"Unknown tool: {name}". Only the str, int, bool and None cases are ever
reached by the theorems below; the remaining cases are approximations of
Python's repr. -/
def pyStr : Json → String
  | Json.null => "None"
  | Json.bool b => if b then "True" else "False"
  | Json.int n => toString n
  | Json.float q => toString q
  | Json.str s => s
  | Json.arr _ => "[...]"
  | Json.obj _ => "\x7b...\x7d"

/-- Python str() of a possibly-missing value (dict.get returning None). -/
def pyFormatOpt : Option Json → String
  | none => "None"
  | some j => pyStr j

/-- Python `v == "literal"` where v came from a dict lookup: true exactly
when v is the given string. -/
def isStrEq (v : Option Json) (s : String) : Bool :=
  match v with
  | some (Json.str t) => t == s
  | _ => false

/-- Python isinstance(v, int) together with the int value: JSON ints are
ints, and Python bools are a subclass of int (True has value 1). -/
def pyAsInt : Json → Option Int
  | Json.int n => some n
  | Json.bool b => some (if b then 1 else 0)
  | _ => none

/-- Python truthiness of a decoded JSON value. -/
def pyTruthy : Json → Bool
  | Json.null => false
  | Json.bool b => b
  | Json.int n => n != 0
  | Json.float q => q != 0
  | Json.str s => s != ""
  | Json.arr l => !l.isEmpty
  | Json.obj l => !l.isEmpty

/-- Numeric argument extraction `arguments.get(key, default)` for the
timeout / poll_interval arguments. A present non-numeric value would
raise TypeError at the first comparison in the source; that path is not
modelled (no claim exercises it). -/
def getNumArg (args : Json) (key : String) (dflt : ℚ) : ℚ :=
  match jsonLookup args key with
  | some (Json.int n) => (n : ℚ)
  | some (Json.float q) => q
  | _ => dflt

/-- Python int() truncates toward zero. -/
def pyTrunc (q : ℚ) : Int :=
  if 0 ≤ q then ⌊q⌋ else ⌈q⌉

/-- A tool descriptor as listed by handle_tools_list:
{name, description, inputSchema}. -/
structure ToolDescriptor where
  name : String
  description : String
  inputSchema : Json

/-- One element of a tools/call result's "content" array. The servers
emit {"type": "text", "text": t} where t is either json.dumps of a
payload dict (kept unserialized here, json.dumps being stdlib) or a plain
string. -/
inductive TextContent where
  | jsonText (payload : Json)
  | plainText (s : String)

/-- A tools/call handler result: {"content": [...]}. -/
structure CallContent where
  content : List TextContent

/-- Static identity returned by handle_initialize. -/
structure InitInfo where
  protocolVersion : String
  serverName : String
  serverVersion : String

/-- The "result" member of a success response, by method. -/
inductive RpcResult where
  | initR (info : InitInfo)
  | toolsList (tools : List ToolDescriptor)
  | callR (c : CallContent)

/-- Either {"result": ...} or {"error": {"code": ..., "message": ...}}. -/
inductive RpcOutcome where
  | result (r : RpcResult)
  | error (code : Int) (message : String)

/-- One emitted JSON-RPC response line ("jsonrpc": "2.0" is constant and
omitted); id echoes request.get("id"). -/
structure RpcResponse where
  id : Option Json
  outcome : RpcOutcome

/-- The parts of one server that main() dispatches to. tools_list is
Except because calling handle_tools_list can raise (it does in the
grok proxy, see grok_handle_tools_list). call returns none when the
handler never returns (a blocking tool still waiting). -/
structure ServerDef where
  init_result : InitInfo
  tools_list : Except String (List ToolDescriptor)
  call : Option Json → Json → Option (Except String CallContent)

/-- The body of one iteration of main() for a request that decoded to a
dict: extract method/params/id, dispatch inside the inner try, convert a
raised exception into an error response with code -32603. Returns none
when a blocking handler has not returned (no response is emitted). -/
def handleRequest (sd : ServerDef) (req : Json) : Option RpcResponse :=
  let method := jsonLookup req "method"
  let params := (jsonLookup req "params").getD (Json.obj [])
  let rid := jsonLookup req "id"
  let r : Option (Except String RpcResult) :=
    if isStrEq method "initialize" then
      some (Except.ok (RpcResult.initR sd.init_result))
    else if isStrEq method "tools/list" then
      some (sd.tools_list.map RpcResult.toolsList)
    else if isStrEq method "tools/call" then
      match pyGet params "name" with
      | Except.error e => some (Except.error e)
      | Except.ok nm =>
        match pyGet params "arguments" with
        | Except.error e => some (Except.error e)
        | Except.ok argsv =>
          (sd.call nm (argsv.getD (Json.obj []))).map (Except.map RpcResult.callR)
    else
      some (Except.error ("Unknown method: " ++ pyFormatOpt method))
  r.map fun x =>
    match x with
    | Except.ok v => ⟨rid, RpcOutcome.result v⟩
    | Except.error m => ⟨rid, RpcOutcome.error (-32603) m⟩

/-- The main() loop. The input stream is the list of non-empty lines
readline yields before EOF. receive_message returns None both at EOF and
when json.loads raises on a line, and main() breaks on None; a request
that decoded to a non-dict raises AttributeError at request.get, which
the outer `except Exception` turns into a break as well. A handler that
never returns (none) emits nothing further. -/
def runServer (sd : ServerDef) (json_loads : String → Option Json) :
    List String → List RpcResponse
  | [] => []
  | l :: rest =>
    match json_loads l with
    | none => []
    | some req =>
      match req with
      | Json.obj fs =>
        match handleRequest sd (Json.obj fs) with
        | none => []
        | some resp => resp :: runServer sd json_loads rest
      | _ => []

namespace Sleep

/-!
Embedding of src/mcp/sleep/sleep_mcp_server.py.
-/

/-- Outcome of the os.kill(pid, 0) liveness probe in process_exists. -/
inductive ProbeOutcome where
  | ok
  | noSuchProcess
  | permissionDenied
  | valueError
deriving DecidableEq

/-- Observable side effects of the sleep server's handlers: an os.kill
call (with the signal number actually passed) and a time.sleep. -/
inductive Eff where
  | kill (pid : Int) (sig : Nat)
  | sleep (seconds : ℚ)

/-- Environment a handler call runs in. kill is indexed by probe step (0
is the probe made before the poll loop; step k+1 is the probe of loop
iteration k); elapsed k is time.time() - start_time at loop iteration k;
cmdline folds get_process_command (its /proc read and blanket except
collapse into the oracle, which already yields "unknown" on failure);
procList is the numeric /proc entries seen by find_processes_by_command;
now_iso is datetime.now().isoformat(). -/
structure SleepEnv where
  kill : Nat → Int → Nat → ProbeOutcome
  cmdline : Int → String
  procList : List Int
  now_iso : String
  elapsed : Nat → ℚ

/-- process_exists: os.kill(pid, 0); ProcessLookupError → False,
PermissionError → True (process exists but inaccessible), ValueError →
False. The effect log records the single kill call with signal 0. -/
def process_exists (env : SleepEnv) (step : Nat) (pid : Int) :
    Bool × List Eff :=
  (match env.kill step pid 0 with
   | ProbeOutcome.ok => true
   | ProbeOutcome.noSuchProcess => false
   | ProbeOutcome.permissionDenied => true
   | ProbeOutcome.valueError => false,
   [Eff.kill pid 0])

/-- get_process_command (the oracle already folds in the "unknown"
fallback of the source's try/except and empty-cmdline check). -/
def get_process_command (env : SleepEnv) (pid : Int) : String :=
  env.cmdline pid

/-- The json.dumps payload of the not_found result of
sleep_until_complete. -/
def notFoundPayload (pid : Int) (now_iso : String) : Json :=
  Json.obj
    [("pid", Json.int pid),
     ("status", Json.str "not_found"),
     ("message", Json.str ("Process " ++ toString pid ++ " not found or already exited")),
     ("start_time", Json.str now_iso)]

/-- The json.dumps payload of the completed result. -/
def completedPayload (pid : Int) (cmd : String) (elapsed : ℚ)
    (now_iso : String) : Json :=
  Json.obj
    [("pid", Json.int pid),
     ("status", Json.str "completed"),
     ("command", Json.str cmd),
     ("elapsed_seconds", Json.int (pyTrunc elapsed)),
     ("end_time", Json.str now_iso),
     ("message", Json.str ("Process " ++ toString pid ++ " completed after "
        ++ toString (pyTrunc elapsed) ++ " seconds"))]

/-- The json.dumps payload of the timeout result. -/
def timeoutPayload (pid : Int) (cmd : String) (timeout elapsed : ℚ)
    (now_iso : String) : Json :=
  Json.obj
    [("pid", Json.int pid),
     ("status", Json.str "timeout"),
     ("command", Json.str cmd),
     ("timeout_seconds", Json.float timeout),
     ("elapsed_seconds", Json.int (pyTrunc elapsed)),
     ("still_running", Json.bool true),
     ("end_time", Json.str now_iso),
     ("message", Json.str ("Timeout reached after " ++ toString (pyTrunc timeout)
        ++ " seconds. Process " ++ toString pid ++ " still running."))]

/-- Wrap a payload as the {"content": [{"type": "text", "text": dumps}]}
shape that every sleep handler returns. -/
def textResult (payload : Json) : CallContent :=
  ⟨[TextContent.jsonText payload]⟩

/-- The silent blocking loop of sleep_until_complete (`while True`),
iteration k: read elapsed, re-probe the process, return completed when it
is gone, return timeout when elapsed ≥ timeout, otherwise
time.sleep(poll_interval) and iterate. fuel bounds the number of modelled
iterations; none means the call is still blocked. -/
def sleepLoop (env : SleepEnv) (pid : Int) (cmd : String)
    (timeout poll_interval : ℚ) : Nat → Nat → Option (CallContent × List Eff)
  | 0, _ => none
  | fuel + 1, k =>
    let elapsed := env.elapsed k
    let pr := process_exists env (k + 1) pid
    if pr.1 = false then
      some (textResult (completedPayload pid cmd elapsed env.now_iso), pr.2)
    else if timeout ≤ elapsed then
      some (textResult (timeoutPayload pid cmd timeout elapsed env.now_iso), pr.2)
    else
      match sleepLoop env pid cmd timeout poll_interval fuel (k + 1) with
      | none => none
      | some (r, lg) => some (r, pr.2 ++ Eff.sleep poll_interval :: lg)

/-- sleep_until_complete: validate the pid argument
(not isinstance(pid, int) or pid <= 0 raises ValueError("Invalid PID")),
read timeout / poll_interval with their defaults, probe once, return the
not_found result immediately when the process is absent, otherwise enter
the poll loop. -/
def sleep_until_complete (env : SleepEnv) (fuel : Nat) (args : Json) :
    Option (Except String CallContent × List Eff) :=
  match pyGet args "pid" with
  | Except.error e => some (Except.error e, [])
  | Except.ok pidv =>
    match pidv.bind pyAsInt with
    | none => some (Except.error "Invalid PID", [])
    | some pid =>
      if pid ≤ 0 then some (Except.error "Invalid PID", [])
      else
        let timeout := getNumArg args "timeout" 7200
        let poll_interval := getNumArg args "poll_interval" 1
        let pr := process_exists env 0 pid
        if pr.1 = false then
          some (Except.ok (textResult (notFoundPayload pid env.now_iso)), pr.2)
        else
          let cmd := get_process_command env pid
          match sleepLoop env pid cmd timeout poll_interval fuel 0 with
          | none => none
          | some (r, lg) => some (Except.ok r, pr.2 ++ lg)

/-- Case-insensitive substring test (Python `pat.lower() in cmd.lower()`). -/
def strContains (hay pat : String) : Bool :=
  decide (pat.toLower.data <:+: hay.toLower.data)

/-- find_processes_by_command: scan the numeric /proc entries, keep those
whose command line contains the pattern case-insensitively. -/
def find_processes_by_command (env : SleepEnv) (pat : String) :
    List (Int × String) :=
  (env.procList.map fun pid => (pid, get_process_command env pid)).filter
    fun pc => strContains pc.2 pat

/-- Payload of the not_found result of sleep_until_command_complete. -/
def ccNotFoundPayload (pat : String) (now_iso : String) : Json :=
  Json.obj
    [("command_pattern", Json.str pat),
     ("status", Json.str "not_found"),
     ("message", Json.str ("No processes found matching pattern: " ++ pat)),
     ("start_time", Json.str now_iso)]

/-- Payload of the completed result of sleep_until_command_complete. -/
def ccCompletedPayload (pat : String) (initial_pids : List Int)
    (elapsed : ℚ) (now_iso : String) : Json :=
  Json.obj
    [("command_pattern", Json.str pat),
     ("status", Json.str "completed"),
     ("initial_pids", Json.arr (initial_pids.map Json.int)),
     ("process_count", Json.int initial_pids.length),
     ("elapsed_seconds", Json.int (pyTrunc elapsed)),
     ("end_time", Json.str now_iso),
     ("message", Json.str ("All " ++ toString initial_pids.length
        ++ " matching processes completed after "
        ++ toString (pyTrunc elapsed) ++ " seconds"))]

/-- Payload of the timeout result of sleep_until_command_complete. -/
def ccTimeoutPayload (pat : String) (initial_pids still_running : List Int)
    (timeout elapsed : ℚ) (now_iso : String) : Json :=
  Json.obj
    [("command_pattern", Json.str pat),
     ("status", Json.str "timeout"),
     ("initial_pids", Json.arr (initial_pids.map Json.int)),
     ("still_running_pids", Json.arr (still_running.map Json.int)),
     ("completed_count", Json.int (initial_pids.length - still_running.length)),
     ("still_running_count", Json.int still_running.length),
     ("timeout_seconds", Json.float timeout),
     ("elapsed_seconds", Json.int (pyTrunc elapsed)),
     ("end_time", Json.str now_iso),
     ("message", Json.str ("Timeout after " ++ toString (pyTrunc timeout)
        ++ " seconds. " ++ toString still_running.length ++ "/"
        ++ toString initial_pids.length ++ " processes still running."))]

/-- The probe of every initial pid made during iteration k of the
command-pattern loop, with the surviving pids and the accumulated kill
effects. -/
def probeAll (env : SleepEnv) (step : Nat) (pids : List Int) :
    List Int × List Eff :=
  (pids.filter fun pid => (process_exists env step pid).1,
   pids.map fun pid => Eff.kill pid 0)

/-- The blocking loop of sleep_until_command_complete. -/
def ccLoop (env : SleepEnv) (pat : String) (initial_pids : List Int)
    (timeout poll_interval : ℚ) : Nat → Nat → Option (CallContent × List Eff)
  | 0, _ => none
  | fuel + 1, k =>
    let elapsed := env.elapsed k
    let pr := probeAll env (k + 1) initial_pids
    if pr.1.isEmpty then
      some (textResult (ccCompletedPayload pat initial_pids elapsed env.now_iso), pr.2)
    else if timeout ≤ elapsed then
      some (textResult (ccTimeoutPayload pat initial_pids pr.1 timeout elapsed env.now_iso), pr.2)
    else
      match ccLoop env pat initial_pids timeout poll_interval fuel (k + 1) with
      | none => none
      | some (r, lg) => some (r, pr.2 ++ Eff.sleep poll_interval :: lg)

/-- sleep_until_command_complete: a missing / falsy command_pattern raises
ValueError("command_pattern is required"); a truthy non-string would
raise AttributeError at .lower(). The match set is captured once at call
start and never re-scanned. -/
def sleep_until_command_complete (env : SleepEnv) (fuel : Nat) (args : Json) :
    Option (Except String CallContent × List Eff) :=
  match pyGet args "command_pattern" with
  | Except.error e => some (Except.error e, [])
  | Except.ok pv =>
    match pv with
    | none => some (Except.error "command_pattern is required", [])
    | some v =>
      if pyTruthy v = false then
        some (Except.error "command_pattern is required", [])
      else
        match v with
        | Json.str pat =>
          let timeout := getNumArg args "timeout" 7200
          let poll_interval := getNumArg args "poll_interval" 1
          let initial := find_processes_by_command env pat
          if initial.isEmpty then
            some (Except.ok (textResult (ccNotFoundPayload pat env.now_iso)), [])
          else
            let initial_pids := initial.map Prod.fst
            match ccLoop env pat initial_pids timeout poll_interval fuel 0 with
            | none => none
            | some (r, lg) => some (Except.ok r, lg)
        | _ => some (Except.error "AttributeError: object has no attribute lower", [])

/-- quick_check: validate pid like sleep_until_complete, probe once,
report {"pid", "running", "command", "checked_at"}; command is None when
the process does not exist. -/
def quick_check (env : SleepEnv) (args : Json) :
    Except String CallContent × List Eff :=
  match pyGet args "pid" with
  | Except.error e => (Except.error e, [])
  | Except.ok pidv =>
    match pidv.bind pyAsInt with
    | none => (Except.error "Invalid PID", [])
    | some pid =>
      if pid ≤ 0 then (Except.error "Invalid PID", [])
      else
        let pr := process_exists env 0 pid
        let cmd : Json :=
          if pr.1 then Json.str (get_process_command env pid) else Json.null
        (Except.ok (textResult (Json.obj
          [("pid", Json.int pid),
           ("running", Json.bool pr.1),
           ("command", cmd),
           ("checked_at", Json.str env.now_iso)])), pr.2)

/-- handle_tools_call of the sleep server: dispatch on the tool name,
raising ValueError(f"Unknown tool: {name}") for anything unregistered. -/
def handle_tools_call (env : SleepEnv) (fuel : Nat) (name : Option Json)
    (args : Json) : Option (Except String CallContent × List Eff) :=
  if isStrEq name "sleep_until_complete" then
    sleep_until_complete env fuel args
  else if isStrEq name "sleep_until_command_complete" then
    sleep_until_command_complete env fuel args
  else if isStrEq name "quick_check" then
    some (quick_check env args)
  else
    some (Except.error ("Unknown tool: " ++ pyFormatOpt name), [])

/-- The static tools/list of the sleep server, in registration order. -/
def sleep_tools : List ToolDescriptor :=
  [{ name := "sleep_until_complete",
     description := "Block until a process completes or timeout occurs. Returns immediately if process not found.",
     inputSchema := Json.obj
       [("type", Json.str "object"),
        ("properties", Json.obj
          [("pid", Json.obj
             [("type", Json.str "integer"),
              ("description", Json.str "Process ID to wait for")]),
           ("timeout", Json.obj
             [("type", Json.str "integer"),
              ("description", Json.str "Maximum time to wait in seconds (default: 7200 = 2 hours)"),
              ("default", Json.int 7200)]),
           ("poll_interval", Json.obj
             [("type", Json.str "number"),
              ("description", Json.str "How often to check process status in seconds (default: 1.0)"),
              ("default", Json.float 1)])]),
        ("required", Json.arr [Json.str "pid"])] },
   { name := "sleep_until_command_complete",
     description := "Block until all processes matching a command pattern complete or timeout. Useful when you don't have the exact PID.",
     inputSchema := Json.obj
       [("type", Json.str "object"),
        ("properties", Json.obj
          [("command_pattern", Json.obj
             [("type", Json.str "string"),
              ("description", Json.str "Command pattern to search for (substring match in command line)")]),
           ("timeout", Json.obj
             [("type", Json.str "integer"),
              ("description", Json.str "Maximum time to wait in seconds (default: 7200 = 2 hours)"),
              ("default", Json.int 7200)]),
           ("poll_interval", Json.obj
             [("type", Json.str "number"),
              ("description", Json.str "How often to check process status in seconds (default: 1.0)"),
              ("default", Json.float 1)])]),
        ("required", Json.arr [Json.str "command_pattern"])] },
   { name := "quick_check",
     description := "Quick non-blocking check if a process is running. Returns immediately.",
     inputSchema := Json.obj
       [("type", Json.str "object"),
        ("properties", Json.obj
          [("pid", Json.obj
             [("type", Json.str "integer"),
              ("description", Json.str "Process ID to check")])]),
        ("required", Json.arr [Json.str "pid"])] }]

/-- handle_initialize of the sleep server. -/
def sleepInit : InitInfo :=
  { protocolVersion := "2024-11-05", serverName := "sleep",
    serverVersion := "1.0.0" }

/-- The sleep server as dispatched by its main() (the handlers' effect
logs are ghost instrumentation and are dropped at the wire). -/
def sleepServer (env : SleepEnv) (fuel : Nat) : ServerDef :=
  { init_result := sleepInit,
    tools_list := Except.ok sleep_tools,
    call := fun name args =>
      (handle_tools_call env fuel name args).map Prod.fst }

end Sleep

namespace Grok

/-!
Embedding of src/mcp/grok-proxy/grok_proxy_mcp_server.py.
-/

/-- The breaker's state field; the source stores the strings "closed",
"open" and "half-open" (opened is named to avoid the Lean keyword). -/
inductive BState where
  | closed
  | opened
  | halfOpen
deriving DecidableEq

/-- String stored in the source's state field. -/
def bstateStr : BState → String
  | BState.closed => "closed"
  | BState.opened => "open"
  | BState.halfOpen => "half-open"

/-- CircuitBreaker instance state; last_failure_time starts as None and
times are datetime.now().timestamp() values. -/
structure CircuitBreaker where
  failure_threshold : Nat
  timeout : ℚ
  failure_count : Nat
  last_failure_time : Option ℚ
  state : BState

/-- CircuitBreaker.__init__ (defaults failure_threshold=3, timeout=60). -/
def CircuitBreaker.init (failure_threshold : Nat := 3) (timeout : ℚ := 60) :
    CircuitBreaker :=
  { failure_threshold := failure_threshold, timeout := timeout,
    failure_count := 0, last_failure_time := none, state := BState.closed }

/-- can_execute at wall-clock instant now: closed → True; open → become
half-open and allow one trial once now - last_failure_time > timeout,
reject otherwise; half-open → True. In the source last_failure_time is
always set while the state is open (lemma reachable_open_time below);
Python would raise TypeError on None, which is unreachable. -/
def can_execute (cb : CircuitBreaker) (now : ℚ) : Bool × CircuitBreaker :=
  match cb.state with
  | BState.closed => (true, cb)
  | BState.opened =>
    match cb.last_failure_time with
    | some t =>
      if cb.timeout < now - t then (true, { cb with state := BState.halfOpen })
      else (false, cb)
    | none => (false, cb)
  | BState.halfOpen => (true, cb)

/-- record_success: reset the count and close the breaker. -/
def record_success (cb : CircuitBreaker) : CircuitBreaker :=
  { cb with failure_count := 0, state := BState.closed }

/-- record_failure at instant now: bump the count, stamp the failure
time, open the breaker once the threshold is reached. -/
def record_failure (cb : CircuitBreaker) (now : ℚ) : CircuitBreaker :=
  let cb' := { cb with failure_count := cb.failure_count + 1,
                       last_failure_time := some now }
  if cb'.failure_threshold ≤ cb'.failure_count then
    { cb' with state := BState.opened }
  else cb'

/-- Breaker states reachable from a constructor call through the three
methods (the only code that mutates a breaker). -/
inductive Reach : CircuitBreaker → Prop
  | init (ft : Nat) (tmo : ℚ) : Reach (CircuitBreaker.init ft tmo)
  | canExec {cb : CircuitBreaker} (now : ℚ) :
      Reach cb → Reach (can_execute cb now).2
  | success {cb : CircuitBreaker} : Reach cb → Reach (record_success cb)
  | failure {cb : CircuitBreaker} (now : ℚ) :
      Reach cb → Reach (record_failure cb now)

/-- In every reachable non-closed breaker state the failure count has hit
the threshold and a failure time is recorded. -/
theorem reachable_open_time {cb : CircuitBreaker} (h : Reach cb) :
    cb.state ≠ BState.closed →
      cb.failure_threshold ≤ cb.failure_count ∧ cb.last_failure_time ≠ none := by
  induction h with
  | init ft tmo => intro hs; exact absurd rfl hs
  | @canExec cb' now _ ih =>
    obtain ⟨ft, tmo, fc, lft, st⟩ := cb'
    intro hs
    cases st with
    | closed => simp [can_execute] at hs
    | opened =>
      obtain ⟨h1, h2⟩ := ih (by simp)
      cases lft with
      | none => simp at h2
      | some t =>
        by_cases hc : tmo < now - t
        · simpa [can_execute, hc] using h1
        · simpa [can_execute, hc] using h1
    | halfOpen =>
      obtain ⟨h1, h2⟩ := ih (by simp)
      simpa [can_execute] using ⟨h1, h2⟩
  | @success cb' _ ih =>
    intro hs
    simp [record_success] at hs
  | @failure cb' now _ ih =>
    obtain ⟨ft, tmo, fc, lft, st⟩ := cb'
    intro hs
    by_cases hc : ft ≤ fc + 1
    · simp_all [record_failure]
    · simp only [record_failure, hc, if_false] at hs ⊢
      obtain ⟨h1, _⟩ := ih (by simpa using hs)
      exact absurd h1 (by simp at h1 ⊢; omega)

/-- Iterated record_failure over a list of failure instants. -/
def applyFailures (cb : CircuitBreaker) (ts : List ℚ) : CircuitBreaker :=
  ts.foldl record_failure cb

/-- What one attempt of the aiohttp POST inside call_grok_api can
observe: a 200 whose JSON body yields content and optional
reasoning_content; a non-200 status with its body text; an asyncio
timeout; an aiohttp.ClientError; a JSONDecodeError while parsing the
body; or any other exception. -/
inductive AttemptOutcome where
  | ok (content : String) (reasoning : String)
  | httpError (status : Nat) (body : String)
  | timeoutErr
  | clientError (msg : String)
  | jsonError (msg : String)
  | otherError (msg : String)

/-- True for the outcomes call_grok_api retries: a 5xx response, an
asyncio timeout or an aiohttp client error. -/
def transientOutcome : AttemptOutcome → Bool
  | AttemptOutcome.httpError status _ => 500 ≤ status
  | AttemptOutcome.timeoutErr => true
  | AttemptOutcome.clientError _ => true
  | _ => false

/-- The text returned for a 200: content, prefixed by the reasoning trace
when reasoning_content is non-empty. -/
def formatGrokResponse (content reasoning : String) : String :=
  if reasoning ≠ "" then
    "## Reasoning Process\n" ++ reasoning ++ "\n\n## Response\n" ++ content
  else content

/-- The result of one call_grok_api invocation: the returned text (or the
raised exception), the breaker afterwards, the backoff sleeps performed
(seconds, in order) and the number of network attempts made. -/
structure GrokCallOut where
  result : Except String String
  breaker : CircuitBreaker
  sleeps : List Nat
  attempts : Nat

/-- max_retries of call_grok_api. -/
def max_retries : Nat := 3

/-- The `while retry_count < max_retries` loop of call_grok_api. env k is
what attempt k observes; times k is datetime.now().timestamp() during
attempt k (used by record_failure). On a 5xx, timeout or client error it
sleeps 2 ** retry_count (after the increment) and retries while attempts
remain, otherwise records one breaker failure and returns an error
string; a 4xx, bad JSON or unexpected exception records one failure and
returns an error string without retrying; a 200 records one success. The
final fallthrough return of the source is unreachable (every iteration
returns or continues) but embedded faithfully. -/
def grokLoop (env : Nat → AttemptOutcome) (times : Nat → ℚ)
    (cb : CircuitBreaker) (retry_count : Nat) : GrokCallOut :=
  if _h : retry_count < max_retries then
    match env retry_count with
    | AttemptOutcome.ok content reasoning =>
      { result := Except.ok (formatGrokResponse content reasoning),
        breaker := record_success cb, sleeps := [], attempts := 1 }
    | AttemptOutcome.httpError status body =>
      if 500 ≤ status ∧ retry_count + 1 < max_retries then
        let r := grokLoop env times cb (retry_count + 1)
        { r with sleeps := 2 ^ (retry_count + 1) :: r.sleeps,
                 attempts := r.attempts + 1 }
      else
        { result := Except.ok ("Error calling Grok-4 API: " ++ toString status
            ++ " - " ++ body),
          breaker := record_failure cb (times retry_count),
          sleeps := [], attempts := 1 }
    | AttemptOutcome.timeoutErr =>
      if retry_count + 1 < max_retries then
        let r := grokLoop env times cb (retry_count + 1)
        { r with sleeps := 2 ^ (retry_count + 1) :: r.sleeps,
                 attempts := r.attempts + 1 }
      else
        { result := Except.ok "Error: Grok-4 API request timed out after multiple retries",
          breaker := record_failure cb (times retry_count),
          sleeps := [], attempts := 1 }
    | AttemptOutcome.clientError msg =>
      if retry_count + 1 < max_retries then
        let r := grokLoop env times cb (retry_count + 1)
        { r with sleeps := 2 ^ (retry_count + 1) :: r.sleeps,
                 attempts := r.attempts + 1 }
      else
        { result := Except.ok ("Error calling Grok-4 API: " ++ msg),
          breaker := record_failure cb (times retry_count),
          sleeps := [], attempts := 1 }
    | AttemptOutcome.jsonError _ =>
      { result := Except.ok "Error parsing Grok-4 API response: Invalid JSON",
        breaker := record_failure cb (times retry_count),
        sleeps := [], attempts := 1 }
    | AttemptOutcome.otherError msg =>
      { result := Except.ok ("Error calling Grok-4 API: " ++ msg),
        breaker := record_failure cb (times retry_count),
        sleeps := [], attempts := 1 }
  else
    { result := Except.ok ("Failed to call Grok-4 API after "
        ++ toString max_retries ++ " retries"),
      breaker := record_failure cb (times retry_count),
      sleeps := [], attempts := 0 }
termination_by max_retries - retry_count
decreasing_by all_goals (simp only [max_retries] at *; omega)

/-- call_grok_api: consult the breaker first (an open breaker yields the
unavailable message without any attempt), fail fast on a missing
XAI_API_KEY (raised, not returned), then run the retry loop. now is
datetime.now().timestamp() at the can_execute call. -/
def call_grok_api (cb : CircuitBreaker) (now : ℚ) (api_key : Option String)
    (env : Nat → AttemptOutcome) (times : Nat → ℚ) : GrokCallOut :=
  let ce := can_execute cb now
  if ce.1 = false then
    { result := Except.ok ("Service temporarily unavailable: Circuit breaker is "
        ++ bstateStr ce.2.state ++ " - service temporarily unavailable"),
      breaker := ce.2, sleeps := [], attempts := 0 }
  else
    match api_key with
    | none =>
      { result := Except.error "XAI_API_KEY environment variable is required",
        breaker := ce.2, sleeps := [], attempts := 0 }
    | some _ => grokLoop env times ce.2 0

/-- What the single health-check POST of check_api_health can observe. -/
inductive HealthOutcome where
  | ok (response_time_ms : ℚ)
  | httpError (status : Nat) (response_time_ms : ℚ)
  | timeoutErr
  | otherError (msg : String)

/-- The health_status dict built by check_api_health. -/
structure HealthStatus where
  status : String
  timestamp : String
  circuit_breaker : String
  api_connectivity : Bool
  response_time_ms : Option ℚ
  error : Option String

/-- The result of one check_api_health invocation, with the breaker
afterwards and the number of network requests attempted. -/
structure HealthOut where
  result : Except String HealthStatus
  breaker : CircuitBreaker
  attempts : Nat

/-- round(x, 2) (Python uses banker's rounding on floats; ties at the
third decimal never arise in the claims below). -/
def roundHundredths (q : ℚ) : ℚ := (round (q * 100) : ℤ) / 100

/-- check_api_health: raise on a missing key; snapshot the breaker state
into the status dict; when can_execute() is false return circuit_open
without any network request; otherwise make one request and record its
outcome against the breaker. failNow is the record_failure timestamp. -/
def check_api_health (cb : CircuitBreaker) (now failNow : ℚ)
    (api_key : Option String) (now_iso : String) (outcome : HealthOutcome) :
    HealthOut :=
  match api_key with
  | none =>
    { result := Except.error "XAI_API_KEY environment variable is required",
      breaker := cb, attempts := 0 }
  | some _ =>
    let base : HealthStatus :=
      { status := "unknown", timestamp := now_iso,
        circuit_breaker := bstateStr cb.state, api_connectivity := false,
        response_time_ms := none, error := none }
    let ce := can_execute cb now
    if ce.1 = false then
      { result := Except.ok { base with
          status := "circuit_open",
          error := some "Circuit breaker is open due to repeated failures" },
        breaker := ce.2, attempts := 0 }
    else
      match outcome with
      | HealthOutcome.ok rt =>
        { result := Except.ok { base with
            status := "healthy", api_connectivity := true,
            response_time_ms := some (roundHundredths rt) },
          breaker := record_success ce.2, attempts := 1 }
      | HealthOutcome.httpError status rt =>
        { result := Except.ok { base with
            status := "unhealthy",
            response_time_ms := some (roundHundredths rt),
            error := some ("API returned status " ++ toString status) },
          breaker := record_failure ce.2 failNow, attempts := 1 }
      | HealthOutcome.timeoutErr =>
        { result := Except.ok { base with
            status := "unhealthy", error := some "Health check timeout" },
          breaker := record_failure ce.2 failNow, attempts := 1 }
      | HealthOutcome.otherError msg =>
        { result := Except.ok { base with
            status := "unhealthy", error := some msg },
          breaker := record_failure ce.2 failNow, attempts := 1 }

/-- handle_tools_list of the grok proxy. Its body evaluates the bare name
`false` (line 101, "additionalProperties": false) which is not defined in
Python — the intended literal is False — so every call raises
NameError("name 'false' is not defined") before any descriptor is built. -/
def grok_handle_tools_list : Except String (List ToolDescriptor) :=
  Except.error "name 'false' is not defined"

/-- handle_initialize of the grok proxy. -/
def grokInit : InitInfo :=
  { protocolVersion := "2024-11-05", serverName := "grok_proxy",
    serverVersion := "1.0.0" }

/-- The grok proxy as dispatched by its main(), parametrized by its
handle_tools_call closure (the claims below about this server concern
only the initialize and tools/list branches, which do not consult it). -/
def grokServer (call : Option Json → Json → Option (Except String CallContent)) :
    ServerDef :=
  { init_result := grokInit,
    tools_list := grok_handle_tools_list,
    call := call }

end Grok


namespace Gpt5

/-!
Embedding of src/mcp/gpt5-proxy/gpt5_proxy_mcp_server.py (the token
budget functions and the static server identity / tool list).
-/

/-- One chat message in OpenAI format ({role, content}); the schema
requires both to be strings and estimate_prompt_tokens reads
str(msg.get('content', '')). -/
structure Message where
  role : String
  content : String

/-- estimate_prompt_tokens: total content characters // 4. -/
def estimate_prompt_tokens (messages : List Message) : Nat :=
  (messages.map fun m => m.content.length).sum / 4

/-- calc_max_tokens: env_limit is int(os.environ.get
("GPT5_MAX_COMPLETION_TOKENS", "4096")); the context limit is 128000
with a 100-token safety buffer and a floor of 64 tokens of room; the
budget is the smaller of the env limit and the available room. -/
def calc_max_tokens (env_limit : Int) (messages : List Message) : Int :=
  let context_limit : Int := 128000
  let prompt_tokens : Int := estimate_prompt_tokens messages
  let available_room := max (context_limit - prompt_tokens - 100) 64
  min env_limit available_room

/-- handle_initialize of the gpt5 proxy. -/
def gpt5Init : InitInfo :=
  { protocolVersion := "2024-11-05", serverName := "gpt5_proxy",
    serverVersion := "1.1.0" }

/-- The static tools/list of the gpt5 proxy. -/
def gpt5_tools : List ToolDescriptor :=
  [{ name := "gpt5_chat",
     description := "Consult OpenAI GPT-5 when you are stuck or need strategic advice.",
     inputSchema := Json.obj
       [("type", Json.str "object"),
        ("properties", Json.obj
          [("messages", Json.obj
             [("type", Json.str "array"),
              ("items", Json.obj
                [("type", Json.str "object"),
                 ("properties", Json.obj
                   [("role", Json.obj [("type", Json.str "string")]),
                    ("content", Json.obj [("type", Json.str "string")])]),
                 ("required", Json.arr [Json.str "role", Json.str "content"])]),
              ("description", Json.str "Array of chat messages in OpenAI format")])]),
        ("required", Json.arr [Json.str "messages"])] }]

/-- The gpt5 proxy as dispatched by its main(), parametrized by its
handle_tools_call closure. -/
def gpt5Server (call : Option Json → Json → Option (Except String CallContent)) :
    ServerDef :=
  { init_result := gpt5Init,
    tools_list := Except.ok gpt5_tools,
    call := call }

end Gpt5

namespace AskLLM

/-!
Embedding of src/tmux/ask-llm-output-manager.py (AskLLMOutputManager).
The file system is modelled as the contents of the two files a session
owns; every write method writes whole strings, so a file is a String.
-/

/-- The pair of files a session owns: the timestamped permanent record
and the latest_response.txt pointer copy. -/
structure SessionFiles where
  timestamped : String
  latest : String

/-- A run of n copies of a character, Python's "=" * n. -/
def repChar (c : Char) (n : Nat) : String :=
  String.mk (List.replicate n c)

/-- The helper _format_file_content: ninjagrab-style delimited file
dump; empty for an empty list. -/
def format_file_content (files_content : List (String × String)) : String :=
  if files_content.isEmpty then ""
  else
    String.intercalate "\n"
      (["=== ATTACHED FILES ===", ""]
        ++ files_content.flatMap (fun fc => ["===== " ++ fc.1 ++ " =====", fc.2, ""]))

/-- The initial content create_session_file writes to both files:
header, timestamp line, model line, optional attached files, the
question, and an empty RESPONSE section. content_ts is the
strftime('%Y-%m-%d %H:%M:%S') timestamp written into the header
(files_content = [] covers the default None, both being falsy). -/
def initialContent (model_name question content_ts : String)
    (files_content : List (String × String)) : String :=
  String.intercalate "\n"
    ([repChar '=' 80,
      "ASK LLM SESSION - " ++ model_name.toUpper,
      repChar '=' 80,
      "Timestamp: " ++ content_ts,
      "Model: " ++ model_name,
      ""]
      ++ (if files_content.isEmpty then []
          else [format_file_content files_content, ""])
      ++ [repChar '=' 40 ++ " QUESTION " ++ repChar '=' 33,
          question,
          "",
          repChar '=' 40 ++ " RESPONSE " ++ repChar '=' 33,
          ""])

/-- create_session_file: write the same initial content to the
timestamped file and to latest_response.txt. -/
def create_session_file (model_name question content_ts : String)
    (files_content : List (String × String)) : SessionFiles :=
  let c := initialContent model_name question content_ts files_content
  { timestamped := c, latest := c }

/-- append_response: open both files in append mode and write
response + "\n\n" to each in the same operation. -/
def append_response (f : SessionFiles) (response : String) : SessionFiles :=
  { timestamped := f.timestamped ++ (response ++ "\n\n"),
    latest := f.latest ++ (response ++ "\n\n") }

/-- The follow-up block appended by append_follow_up_question. -/
def followUpText (question : String) : String :=
  String.intercalate "\n"
    [repChar '=' 37 ++ " FOLLOW-UP " ++ repChar '=' 32,
     question,
     "",
     repChar '=' 40 ++ " RESPONSE " ++ repChar '=' 33,
     ""]

/-- append_follow_up_question: append the same follow-up block to both
files. -/
def append_follow_up_question (f : SessionFiles) (question : String) :
    SessionFiles :=
  { timestamped := f.timestamped ++ followUpText question,
    latest := f.latest ++ followUpText question }

/-- One append operation performed on a session after creation. -/
inductive AppendOp where
  | response (s : String)
  | followUp (q : String)

/-- Apply one append operation. -/
def applyOp (f : SessionFiles) : AppendOp → SessionFiles
  | AppendOp.response s => append_response f s
  | AppendOp.followUp q => append_follow_up_question f q

/-- Apply a sequence of append operations in order. -/
def applyOps (f : SessionFiles) : List AppendOp → SessionFiles
  | [] => f
  | op :: rest => applyOps (applyOp f op) rest

end AskLLM

/-!
Theorems for the claims, with shared helper lemmas and concrete
environments for witnesses.
-/

/-- A concrete environment for witness evaluation: every probe sees a
live process, every command line is unknown, /proc is empty. -/
def envW : Sleep.SleepEnv :=
  { kill := fun _ _ _ => Sleep.ProbeOutcome.ok,
    cmdline := fun _ => "unknown",
    procList := [],
    now_iso := "T",
    elapsed := fun _ => 0 }

/-- C8: after create_session_file writes identical content to the
timestamped and latest files, every append_response and
append_follow_up_question writes the same bytes to both in the same
operation, so after any sequence of appends the two files' contents are
identical. -/
theorem session_files_never_diverge (model_name question content_ts : String)
    (files_content : List (String × String)) (ops : List AskLLM.AppendOp) :
    (AskLLM.applyOps
        (AskLLM.create_session_file model_name question content_ts files_content)
        ops).timestamped
      = (AskLLM.applyOps
          (AskLLM.create_session_file model_name question content_ts files_content)
          ops).latest := by
  have key : ∀ (l : List AskLLM.AppendOp) (f : AskLLM.SessionFiles),
      f.timestamped = f.latest →
      (AskLLM.applyOps f l).timestamped = (AskLLM.applyOps f l).latest := by
    intro l
    induction l with
    | nil => intro f h; exact h
    | cons op rest ih =>
      intro f h
      apply ih
      cases op <;>
        simp [AskLLM.applyOp, AskLLM.append_response,
          AskLLM.append_follow_up_question, h]
  exact key ops _ rfl

/-- A 511600-character message content (4 x 127900 characters). -/
def bigContent : String := String.mk (List.replicate 511600 'a')

/-- Length of the oversized content. -/
theorem bigContent_length : bigContent.length = 511600 := by
  rw [show bigContent.length = (List.replicate 511600 'a').length from rfl,
      List.length_replicate]

/-- The single oversized message used to refute C4: its content has
511600 characters, estimating to 127900 prompt tokens. -/
def gpt5CexMsgs : List Gpt5.Message :=
  [{ role := "user", content := bigContent }]

/-- estimate_prompt_tokens of a single message is its content length
divided (integer division) by 4. -/
theorem estimate_single (r c : String) :
    Gpt5.estimate_prompt_tokens [{ role := r, content := c }] = c.length / 4 := rfl

/-- The estimate of the C4 counterexample messages. -/
theorem gpt5CexMsgs_estimate : Gpt5.estimate_prompt_tokens gpt5CexMsgs = 127900 := by
  rw [show gpt5CexMsgs = [{ role := "user", content := bigContent }] from rfl,
      estimate_single, bigContent_length]

/-- C4 counterexample: with the default env limit 4096 and a prompt
estimating to 127900 tokens, calc_max_tokens returns the 64-token floor,
and 127900 + 64 exceeds contextLimit - safetyMargin = 127900; the claimed
inequality fails for this prompt size. -/
theorem calc_max_tokens_overflow_cex :
    ¬ ((Gpt5.estimate_prompt_tokens gpt5CexMsgs : Int)
        + Gpt5.calc_max_tokens 4096 gpt5CexMsgs ≤ 128000 - 100) := by
  have h := gpt5CexMsgs_estimate
  simp only [Gpt5.calc_max_tokens, h]
  norm_num

/-- C4 (amended): the token budget satisfies
estimatedPromptTokens + completionBudget ≤ contextLimit - safetyMargin
whenever the estimated prompt tokens stay at or below
contextLimit - safetyMargin - 64 = 127836 (the source floors the
available room at 64 tokens, so larger prompts exceed the bound, as the
counterexample shows); this holds for every env limit. -/
theorem calc_max_tokens_bounded (messages : List Gpt5.Message)
    (env_limit : Int)
    (h : (Gpt5.estimate_prompt_tokens messages : Int) ≤ 127836) :
    (Gpt5.estimate_prompt_tokens messages : Int)
      + Gpt5.calc_max_tokens env_limit messages ≤ 128000 - 100 := by
  simp only [Gpt5.calc_max_tokens]
  omega

/-- Witness for the amended C4 at a concrete two-character prompt. -/
theorem calc_max_tokens_bounded_witness :
    (Gpt5.estimate_prompt_tokens [{ role := "user", content := "hi" }] : Int) ≤ 127836 ∧
    (Gpt5.estimate_prompt_tokens [{ role := "user", content := "hi" }] : Int)
      + Gpt5.calc_max_tokens 4096 [{ role := "user", content := "hi" }] ≤ 128000 - 100 := by
  have h0 : Gpt5.estimate_prompt_tokens [{ role := "user", content := "hi" }] = 0 := by decide
  exact ⟨by rw [h0]; norm_num, calc_max_tokens_bounded _ 4096 (by rw [h0]; norm_num)⟩

/-- C9: check_api_health never bypasses an open breaker — whenever
can_execute() is false, no network request is attempted (attempts = 0)
and the returned status is "circuit_open" with the explanatory error
field. -/
theorem check_api_health_respects_breaker (cb : Grok.CircuitBreaker)
    (now failNow : ℚ) (key now_iso : String) (outcome : Grok.HealthOutcome)
    (h : (Grok.can_execute cb now).1 = false) :
    (Grok.check_api_health cb now failNow (some key) now_iso outcome).attempts = 0 ∧
    (Grok.check_api_health cb now failNow (some key) now_iso outcome).result =
      Except.ok
        { status := "circuit_open", timestamp := now_iso,
          circuit_breaker := Grok.bstateStr cb.state, api_connectivity := false,
          response_time_ms := none,
          error := some "Circuit breaker is open due to repeated failures" } := by
  simp [Grok.check_api_health, h]

/-- A concrete open breaker (threshold 3, timeout 60, three failures, the
last at instant 2). -/
def cbOpenW : Grok.CircuitBreaker :=
  { failure_threshold := 3, timeout := 60, failure_count := 3,
    last_failure_time := some 2, state := Grok.BState.opened }

/-- Witness for C9: at instant 10 (8 seconds after the last failure) the
open breaker rejects and the health probe reports circuit_open without a
network attempt. -/
theorem check_api_health_respects_breaker_witness :
    (Grok.check_api_health cbOpenW 10 10 (some "k") "T"
        (Grok.HealthOutcome.ok 5)).attempts = 0 ∧
    (Grok.check_api_health cbOpenW 10 10 (some "k") "T"
        (Grok.HealthOutcome.ok 5)).result =
      Except.ok
        { status := "circuit_open", timestamp := "T",
          circuit_breaker := Grok.bstateStr cbOpenW.state,
          api_connectivity := false, response_time_ms := none,
          error := some "Circuit breaker is open due to repeated failures" } :=
  check_api_health_respects_breaker cbOpenW 10 10 "k" "T"
    (Grok.HealthOutcome.ok 5)
    (by norm_num [Grok.can_execute, cbOpenW])

/-- C7: when the liveness probe reports the target absent at call time,
sleep_until_complete returns the not_found result immediately: the value
is independent of the poll fuel (the loop is never entered) and the
effect log holds the single signal-0 probe and no sleep. -/
theorem sleep_until_complete_not_found (env : Sleep.SleepEnv) (fuel : Nat)
    (afields : List (String × Json)) (p : Int)
    (hpid : lookupField afields "pid" = some (Json.int p))
    (hpos : 0 < p)
    (habsent : (Sleep.process_exists env 0 p).1 = false) :
    Sleep.sleep_until_complete env fuel (Json.obj afields) =
      some (Except.ok (Sleep.textResult (Sleep.notFoundPayload p env.now_iso)),
        [Sleep.Eff.kill p 0]) := by
  have hnle : ¬ p ≤ 0 := by omega
  cases hk : env.kill 0 p 0 with
  | ok => simp [Sleep.process_exists, hk] at habsent
  | permissionDenied => simp [Sleep.process_exists, hk] at habsent
  | noSuchProcess =>
    simp [Sleep.sleep_until_complete, pyGet, hpid, pyAsInt, hnle,
      Sleep.process_exists, hk]
  | valueError =>
    simp [Sleep.sleep_until_complete, pyGet, hpid, pyAsInt, hnle,
      Sleep.process_exists, hk]

/-- Witness for C7: pid 5 with a probe that reports no such process. -/
theorem sleep_until_complete_not_found_witness :
    Sleep.sleep_until_complete
        { envW with kill := fun _ _ _ => Sleep.ProbeOutcome.noSuchProcess }
        9 (Json.obj [("pid", Json.int 5)]) =
      some (Except.ok (Sleep.textResult (Sleep.notFoundPayload 5 "T")),
        [Sleep.Eff.kill 5 0]) :=
  sleep_until_complete_not_found _ 9 _ 5 rfl (by norm_num) rfl

/-- C10: a signal-0 probe that raises PermissionError makes
process_exists report the process alive, so quick_check reports
running=true for it, and the probe sends only signal 0 (it never
delivers a terminating signal). -/
theorem quick_check_permission_denied (env : Sleep.SleepEnv)
    (afields : List (String × Json)) (p : Int)
    (hpid : lookupField afields "pid" = some (Json.int p))
    (hpos : 0 < p)
    (hperm : env.kill 0 p 0 = Sleep.ProbeOutcome.permissionDenied) :
    Sleep.process_exists env 0 p = (true, [Sleep.Eff.kill p 0]) ∧
    Sleep.quick_check env (Json.obj afields) =
      (Except.ok (Sleep.textResult (Json.obj
        [("pid", Json.int p),
         ("running", Json.bool true),
         ("command", Json.str (Sleep.get_process_command env p)),
         ("checked_at", Json.str env.now_iso)])),
       [Sleep.Eff.kill p 0]) ∧
    (∀ pid sig, Sleep.Eff.kill pid sig ∈ (Sleep.quick_check env (Json.obj afields)).2 →
      sig = 0) := by
  have hex : Sleep.process_exists env 0 p = (true, [Sleep.Eff.kill p 0]) := by
    simp [Sleep.process_exists, hperm]
  have hnle : ¬ p ≤ 0 := by omega
  have hqc : Sleep.quick_check env (Json.obj afields) =
      (Except.ok (Sleep.textResult (Json.obj
        [("pid", Json.int p),
         ("running", Json.bool true),
         ("command", Json.str (Sleep.get_process_command env p)),
         ("checked_at", Json.str env.now_iso)])),
       [Sleep.Eff.kill p 0]) := by
    simp [Sleep.quick_check, pyGet, hpid, pyAsInt, hnle,
      Sleep.process_exists, hperm, Sleep.get_process_command]
  refine ⟨hex, hqc, ?_⟩
  intro pid sig hmem
  rw [hqc] at hmem
  simp at hmem
  exact hmem.2

/-- Witness for C10 at pid 7 with a permission-denied probe. -/
theorem quick_check_permission_denied_witness :
    Sleep.quick_check
        { envW with kill := fun _ _ _ => Sleep.ProbeOutcome.permissionDenied }
        (Json.obj [("pid", Json.int 7)]) =
      (Except.ok (Sleep.textResult (Json.obj
        [("pid", Json.int 7),
         ("running", Json.bool true),
         ("command", Json.str "unknown"),
         ("checked_at", Json.str "T")])),
       [Sleep.Eff.kill 7 0]) :=
  (quick_check_permission_denied
    { envW with kill := fun _ _ _ => Sleep.ProbeOutcome.permissionDenied }
    [("pid", Json.int 7)] 7 rfl (by norm_num) rfl).2.1

/-- record_failure leaves the threshold unchanged. -/
theorem record_failure_threshold (cb : Grok.CircuitBreaker) (t : ℚ) :
    (Grok.record_failure cb t).failure_threshold = cb.failure_threshold := by
  unfold Grok.record_failure
  dsimp only
  split <;> rfl

/-- record_failure increments the count by one. -/
theorem record_failure_count (cb : Grok.CircuitBreaker) (t : ℚ) :
    (Grok.record_failure cb t).failure_count = cb.failure_count + 1 := by
  unfold Grok.record_failure
  dsimp only
  split <;> rfl

/-- record_failure stamps the failure instant. -/
theorem record_failure_time (cb : Grok.CircuitBreaker) (t : ℚ) :
    (Grok.record_failure cb t).last_failure_time = some t := by
  unfold Grok.record_failure
  dsimp only
  split <;> rfl

/-- record_failure opens the breaker exactly when the incremented count
reaches the threshold. -/
theorem record_failure_opens (cb : Grok.CircuitBreaker) (t : ℚ)
    (h : cb.failure_threshold ≤ cb.failure_count + 1) :
    (Grok.record_failure cb t).state = Grok.BState.opened := by
  unfold Grok.record_failure
  simp [h]

/-- applyFailures leaves the threshold unchanged. -/
theorem applyFailures_threshold (ts : List ℚ) :
    ∀ cb : Grok.CircuitBreaker,
      (Grok.applyFailures cb ts).failure_threshold = cb.failure_threshold := by
  induction ts with
  | nil => intro cb; rfl
  | cons t rest ih =>
    intro cb
    rw [show Grok.applyFailures cb (t :: rest)
          = Grok.applyFailures (Grok.record_failure cb t) rest from rfl,
        ih, record_failure_threshold]

/-- applyFailures adds the number of failures to the count. -/
theorem applyFailures_count (ts : List ℚ) :
    ∀ cb : Grok.CircuitBreaker,
      (Grok.applyFailures cb ts).failure_count = cb.failure_count + ts.length := by
  induction ts with
  | nil => intro cb; rfl
  | cons t rest ih =>
    intro cb
    rw [show Grok.applyFailures cb (t :: rest)
          = Grok.applyFailures (Grok.record_failure cb t) rest from rfl,
        ih, record_failure_count]
    simp
    omega

/-- After a non-empty run of failures the recorded failure time is the
instant of the last one. -/
theorem applyFailures_last_time (ts : List ℚ) :
    ∀ cb : Grok.CircuitBreaker, ts ≠ [] →
      (Grok.applyFailures cb ts).last_failure_time = ts.getLast? := by
  induction ts with
  | nil => intro cb hne; exact absurd rfl hne
  | cons t rest ih =>
    intro cb _
    cases rest with
    | nil =>
      rw [show Grok.applyFailures cb [t] = Grok.record_failure cb t from rfl,
          record_failure_time]
      rfl
    | cons t2 rest2 =>
      rw [show Grok.applyFailures cb (t :: t2 :: rest2)
            = Grok.applyFailures (Grok.record_failure cb t) (t2 :: rest2) from rfl,
          ih _ (by simp), List.getLast?_cons_cons]

/-- A non-empty run of failures whose total reaches the threshold leaves
the breaker open. -/
theorem applyFailures_opens (ts : List ℚ) :
    ∀ cb : Grok.CircuitBreaker, ts ≠ [] →
      cb.failure_threshold ≤ cb.failure_count + ts.length →
      (Grok.applyFailures cb ts).state = Grok.BState.opened := by
  induction ts with
  | nil => intro cb hne; exact absurd rfl hne
  | cons t rest ih =>
    intro cb _ hth
    cases rest with
    | nil =>
      rw [show Grok.applyFailures cb [t] = Grok.record_failure cb t from rfl]
      exact record_failure_opens cb t (by simpa using hth)
    | cons t2 rest2 =>
      rw [show Grok.applyFailures cb (t :: t2 :: rest2)
            = Grok.applyFailures (Grok.record_failure cb t) (t2 :: rest2) from rfl]
      apply ih _ (by simp)
      rw [record_failure_threshold, record_failure_count]
      simp at hth ⊢
      omega

/-- C2: the circuit breaker state machine. (a) starting from a zero
failure count, failure_threshold consecutive record_failure calls leave
the state open, with last_failure_time holding the instant of the last
failure; (b) while open with last failure at t, can_execute() returns
false (without mutation) as long as now - t ≤ timeout, and once
now - t > timeout a single can_execute() call moves the state to
half-open and returns true; (c) one record_success sets failure_count
to 0 and state to closed; (d) in any reachable half-open state a
record_failure returns the state to open and resets last_failure_time to
the failure instant. -/
theorem circuit_breaker_behavior :
    (∀ (cb : Grok.CircuitBreaker) (ts : List ℚ), ts ≠ [] →
        cb.failure_count = 0 → ts.length = cb.failure_threshold →
        (Grok.applyFailures cb ts).state = Grok.BState.opened ∧
        (Grok.applyFailures cb ts).last_failure_time = ts.getLast?) ∧
    (∀ (cb : Grok.CircuitBreaker) (t now : ℚ),
        cb.state = Grok.BState.opened → cb.last_failure_time = some t →
        (now - t ≤ cb.timeout → Grok.can_execute cb now = (false, cb)) ∧
        (cb.timeout < now - t →
          Grok.can_execute cb now = (true, { cb with state := Grok.BState.halfOpen }))) ∧
    (∀ cb : Grok.CircuitBreaker,
        (Grok.record_success cb).failure_count = 0 ∧
        (Grok.record_success cb).state = Grok.BState.closed) ∧
    (∀ (cb : Grok.CircuitBreaker) (now : ℚ),
        Grok.Reach cb → cb.state = Grok.BState.halfOpen →
        (Grok.record_failure cb now).state = Grok.BState.opened ∧
        (Grok.record_failure cb now).last_failure_time = some now) := by
  refine ⟨?_, ?_, ?_, ?_⟩
  · intro cb ts hne hcount hlen
    refine ⟨applyFailures_opens ts cb hne (by omega), applyFailures_last_time ts cb hne⟩
  · intro cb t now hstate htime
    constructor
    · intro hle
      simp [Grok.can_execute, hstate, htime, not_lt.mpr hle]
    · intro hlt
      simp [Grok.can_execute, hstate, htime, hlt]
  · intro cb
    exact ⟨rfl, rfl⟩
  · intro cb now hreach hstate
    have hth := Grok.reachable_open_time hreach (by simp [hstate])
    exact ⟨record_failure_opens cb now (by omega), record_failure_time cb now⟩

/-- The breaker reached by three consecutive failures (instants 0, 1, 2)
from a freshly constructed breaker. -/
def cbW : Grok.CircuitBreaker :=
  Grok.record_failure
    (Grok.record_failure (Grok.record_failure (Grok.CircuitBreaker.init 3 60) 0) 1) 2

/-- The trial (half-open) state can_execute produces from cbW once the
timeout has elapsed. -/
def cbHalfW : Grok.CircuitBreaker := { cbW with state := Grok.BState.halfOpen }

/-- Witness for C2: threshold-many failures open the fresh breaker; at 50
(48 seconds after the last failure) can_execute rejects; at 100 it moves
to half-open and allows; record_success closes with zero count; a
failure in the reachable half-open state reopens and restamps the
failure time. -/
theorem circuit_breaker_behavior_witness :
    (Grok.applyFailures (Grok.CircuitBreaker.init 3 60) [0, 1, 2]).state
        = Grok.BState.opened ∧
    Grok.can_execute cbW 50 = (false, cbW) ∧
    Grok.can_execute cbW 100 = (true, cbHalfW) ∧
    (Grok.record_success cbHalfW).failure_count = 0 ∧
    (Grok.record_success cbHalfW).state = Grok.BState.closed ∧
    (Grok.record_failure cbHalfW 105).state = Grok.BState.opened ∧
    (Grok.record_failure cbHalfW 105).last_failure_time = some 105 := by
  obtain ⟨ha, hb, hc, hd⟩ := circuit_breaker_behavior
  have hW : Grok.applyFailures (Grok.CircuitBreaker.init 3 60) [0, 1, 2] = cbW := rfl
  have hstate : cbW.state = Grok.BState.opened := by
    rw [← hW]
    exact (ha (Grok.CircuitBreaker.init 3 60) [0, 1, 2] (by simp) rfl rfl).1
  have htime : cbW.last_failure_time = some 2 := by
    rw [← hW]
    rw [(ha (Grok.CircuitBreaker.init 3 60) [0, 1, 2] (by simp) rfl rfl).2]
    rfl
  have hreachW : Grok.Reach cbW :=
    Grok.Reach.failure 2 (Grok.Reach.failure 1
      (Grok.Reach.failure 0 (Grok.Reach.init 3 60)))
  have h50 : Grok.can_execute cbW 50 = (false, cbW) :=
    (hb cbW 2 50 hstate htime).1 (by norm_num [show cbW.timeout = 60 from rfl])
  have h100 : Grok.can_execute cbW 100 = (true, cbHalfW) :=
    (hb cbW 2 100 hstate htime).2 (by norm_num [show cbW.timeout = 60 from rfl])
  have hreachHalf : Grok.Reach cbHalfW := by
    have := @Grok.Reach.canExec cbW 100 hreachW
    rwa [h100] at this
  have hhalf : cbHalfW.state = Grok.BState.halfOpen := rfl
  refine ⟨by rw [hW]; exact hstate, h50, h100, (hc cbHalfW).1, (hc cbHalfW).2,
    (hd cbHalfW 105 hreachHalf hhalf).1, (hd cbHalfW 105 hreachHalf hhalf).2⟩

/-- Characterization of the retried outcomes. -/
theorem transient_cases (o : Grok.AttemptOutcome)
    (h : Grok.transientOutcome o = true) :
    (∃ s b, o = Grok.AttemptOutcome.httpError s b ∧ 500 ≤ s) ∨
    o = Grok.AttemptOutcome.timeoutErr ∨
    (∃ m, o = Grok.AttemptOutcome.clientError m) := by
  cases o with
  | httpError s b =>
    left
    exact ⟨s, b, rfl, by simpa [Grok.transientOutcome] using h⟩
  | timeoutErr => right; left; rfl
  | clientError m => right; right; exact ⟨m, rfl⟩
  | ok c r => simp [Grok.transientOutcome] at h
  | jsonError m => simp [Grok.transientOutcome] at h
  | otherError m => simp [Grok.transientOutcome] at h


/-- One-step unfolding of the loop: a 200 response returns the formatted
text and records a success. -/
theorem grokLoop_ok (env : Nat → Grok.AttemptOutcome) (times : Nat → ℚ)
    (cb : Grok.CircuitBreaker) (rc : Nat) (c r : String)
    (hrc : rc < Grok.max_retries) (h : env rc = Grok.AttemptOutcome.ok c r) :
    Grok.grokLoop env times cb rc =
      { result := Except.ok (Grok.formatGrokResponse c r),
        breaker := Grok.record_success cb, sleeps := [], attempts := 1 } := by
  conv_lhs => rw [Grok.grokLoop.eq_def]
  rw [h]
  simp only [dif_pos hrc]

/-- One-step unfolding: a 5xx with a retry remaining sleeps
2^(retry_count+1) seconds and re-enters the loop. -/
theorem grokLoop_http_retry (env : Nat → Grok.AttemptOutcome)
    (times : Nat → ℚ) (cb : Grok.CircuitBreaker) (rc st : Nat) (b : String)
    (hrc : rc < Grok.max_retries) (h : env rc = Grok.AttemptOutcome.httpError st b)
    (h5 : 500 ≤ st) (hlt : rc + 1 < Grok.max_retries) :
    Grok.grokLoop env times cb rc =
      { result := (Grok.grokLoop env times cb (rc + 1)).result,
        breaker := (Grok.grokLoop env times cb (rc + 1)).breaker,
        sleeps := 2 ^ (rc + 1) :: (Grok.grokLoop env times cb (rc + 1)).sleeps,
        attempts := (Grok.grokLoop env times cb (rc + 1)).attempts + 1 } := by
  conv_lhs => rw [Grok.grokLoop.eq_def]
  rw [h]
  simp only [dif_pos hrc, if_pos (And.intro h5 hlt)]

/-- One-step unfolding: a non-200 that is not retried (a 4xx, or a 5xx
with no retry remaining) records one failure and returns the error
string. -/
theorem grokLoop_http_final (env : Nat → Grok.AttemptOutcome)
    (times : Nat → ℚ) (cb : Grok.CircuitBreaker) (rc st : Nat) (b : String)
    (hrc : rc < Grok.max_retries) (h : env rc = Grok.AttemptOutcome.httpError st b)
    (hnot : ¬(500 ≤ st ∧ rc + 1 < Grok.max_retries)) :
    Grok.grokLoop env times cb rc =
      { result := Except.ok ("Error calling Grok-4 API: " ++ toString st ++ " - " ++ b),
        breaker := Grok.record_failure cb (times rc),
        sleeps := [], attempts := 1 } := by
  conv_lhs => rw [Grok.grokLoop.eq_def]
  rw [h]
  simp only [dif_pos hrc, if_neg hnot]

/-- One-step unfolding: a timeout with a retry remaining backs off and
re-enters the loop. -/
theorem grokLoop_timeout_retry (env : Nat → Grok.AttemptOutcome)
    (times : Nat → ℚ) (cb : Grok.CircuitBreaker) (rc : Nat)
    (hrc : rc < Grok.max_retries) (h : env rc = Grok.AttemptOutcome.timeoutErr)
    (hlt : rc + 1 < Grok.max_retries) :
    Grok.grokLoop env times cb rc =
      { result := (Grok.grokLoop env times cb (rc + 1)).result,
        breaker := (Grok.grokLoop env times cb (rc + 1)).breaker,
        sleeps := 2 ^ (rc + 1) :: (Grok.grokLoop env times cb (rc + 1)).sleeps,
        attempts := (Grok.grokLoop env times cb (rc + 1)).attempts + 1 } := by
  conv_lhs => rw [Grok.grokLoop.eq_def]
  rw [h]
  simp only [dif_pos hrc, if_pos hlt]

/-- One-step unfolding: a timeout with no retry remaining records one
failure and returns the timeout error string. -/
theorem grokLoop_timeout_final (env : Nat → Grok.AttemptOutcome)
    (times : Nat → ℚ) (cb : Grok.CircuitBreaker) (rc : Nat)
    (hrc : rc < Grok.max_retries) (h : env rc = Grok.AttemptOutcome.timeoutErr)
    (hnlt : ¬ rc + 1 < Grok.max_retries) :
    Grok.grokLoop env times cb rc =
      { result := Except.ok "Error: Grok-4 API request timed out after multiple retries",
        breaker := Grok.record_failure cb (times rc),
        sleeps := [], attempts := 1 } := by
  conv_lhs => rw [Grok.grokLoop.eq_def]
  rw [h]
  simp only [dif_pos hrc, if_neg hnlt]

/-- One-step unfolding: a client error with a retry remaining backs off
and re-enters the loop. -/
theorem grokLoop_client_retry (env : Nat → Grok.AttemptOutcome)
    (times : Nat → ℚ) (cb : Grok.CircuitBreaker) (rc : Nat) (m : String)
    (hrc : rc < Grok.max_retries) (h : env rc = Grok.AttemptOutcome.clientError m)
    (hlt : rc + 1 < Grok.max_retries) :
    Grok.grokLoop env times cb rc =
      { result := (Grok.grokLoop env times cb (rc + 1)).result,
        breaker := (Grok.grokLoop env times cb (rc + 1)).breaker,
        sleeps := 2 ^ (rc + 1) :: (Grok.grokLoop env times cb (rc + 1)).sleeps,
        attempts := (Grok.grokLoop env times cb (rc + 1)).attempts + 1 } := by
  conv_lhs => rw [Grok.grokLoop.eq_def]
  rw [h]
  simp only [dif_pos hrc, if_pos hlt]

/-- One-step unfolding: a client error with no retry remaining records
one failure and returns the error string. -/
theorem grokLoop_client_final (env : Nat → Grok.AttemptOutcome)
    (times : Nat → ℚ) (cb : Grok.CircuitBreaker) (rc : Nat) (m : String)
    (hrc : rc < Grok.max_retries) (h : env rc = Grok.AttemptOutcome.clientError m)
    (hnlt : ¬ rc + 1 < Grok.max_retries) :
    Grok.grokLoop env times cb rc =
      { result := Except.ok ("Error calling Grok-4 API: " ++ m),
        breaker := Grok.record_failure cb (times rc),
        sleeps := [], attempts := 1 } := by
  conv_lhs => rw [Grok.grokLoop.eq_def]
  rw [h]
  simp only [dif_pos hrc, if_neg hnlt]

/-- One-step unfolding: a JSON decode error of the response body records
one failure and returns, without retrying. -/
theorem grokLoop_json (env : Nat → Grok.AttemptOutcome) (times : Nat → ℚ)
    (cb : Grok.CircuitBreaker) (rc : Nat) (m : String)
    (hrc : rc < Grok.max_retries) (h : env rc = Grok.AttemptOutcome.jsonError m) :
    Grok.grokLoop env times cb rc =
      { result := Except.ok "Error parsing Grok-4 API response: Invalid JSON",
        breaker := Grok.record_failure cb (times rc),
        sleeps := [], attempts := 1 } := by
  conv_lhs => rw [Grok.grokLoop.eq_def]
  rw [h]
  simp only [dif_pos hrc]

/-- One-step unfolding: an unexpected exception records one failure and
returns, without retrying. -/
theorem grokLoop_other (env : Nat → Grok.AttemptOutcome) (times : Nat → ℚ)
    (cb : Grok.CircuitBreaker) (rc : Nat) (m : String)
    (hrc : rc < Grok.max_retries) (h : env rc = Grok.AttemptOutcome.otherError m) :
    Grok.grokLoop env times cb rc =
      { result := Except.ok ("Error calling Grok-4 API: " ++ m),
        breaker := Grok.record_failure cb (times rc),
        sleeps := [], attempts := 1 } := by
  conv_lhs => rw [Grok.grokLoop.eq_def]
  rw [h]
  simp only [dif_pos hrc]

/-- The third loop iteration makes at most one attempt and never sleeps
(no retries remain). -/
theorem grokLoop_rc2 (env : Nat → Grok.AttemptOutcome) (times : Nat → ℚ)
    (cb : Grok.CircuitBreaker) :
    (Grok.grokLoop env times cb 2).attempts ≤ 1 ∧
    (Grok.grokLoop env times cb 2).sleeps = [] := by
  have hrc : (2 : Nat) < Grok.max_retries := by norm_num [Grok.max_retries]
  have hnlt : ¬ (2 : Nat) + 1 < Grok.max_retries := by norm_num [Grok.max_retries]
  cases henv : env 2 with
  | ok c r => rw [grokLoop_ok env times cb 2 c r hrc henv]; simp
  | httpError st b =>
    rw [grokLoop_http_final env times cb 2 st b hrc henv (by tauto)]; simp
  | timeoutErr => rw [grokLoop_timeout_final env times cb 2 hrc henv hnlt]; simp
  | clientError m => rw [grokLoop_client_final env times cb 2 m hrc henv hnlt]; simp
  | jsonError m => rw [grokLoop_json env times cb 2 m hrc henv]; simp
  | otherError m => rw [grokLoop_other env times cb 2 m hrc henv]; simp

/-- The second loop iteration makes at most two attempts and sleeps at
most once, for 4 seconds, before its single possible retry. -/
theorem grokLoop_rc1 (env : Nat → Grok.AttemptOutcome) (times : Nat → ℚ)
    (cb : Grok.CircuitBreaker) :
    (Grok.grokLoop env times cb 1).attempts ≤ 2 ∧
    (Grok.grokLoop env times cb 1).sleeps <+: [4] := by
  have hrc : (1 : Nat) < Grok.max_retries := by norm_num [Grok.max_retries]
  have hlt : (1 : Nat) + 1 < Grok.max_retries := by norm_num [Grok.max_retries]
  obtain ⟨ha2, hs2⟩ := grokLoop_rc2 env times cb
  cases henv : env 1 with
  | ok c r => rw [grokLoop_ok env times cb 1 c r hrc henv]; simp
  | httpError st b =>
    by_cases h5 : 500 ≤ st
    · rw [grokLoop_http_retry env times cb 1 st b hrc henv h5 hlt]
      refine ⟨by simpa using ha2, ?_⟩
      simp [hs2]
    · rw [grokLoop_http_final env times cb 1 st b hrc henv (by tauto)]; simp
  | timeoutErr =>
    rw [grokLoop_timeout_retry env times cb 1 hrc henv hlt]
    refine ⟨by simpa using ha2, ?_⟩
    simp [hs2]
  | clientError m =>
    rw [grokLoop_client_retry env times cb 1 m hrc henv hlt]
    refine ⟨by simpa using ha2, ?_⟩
    simp [hs2]
  | jsonError m => rw [grokLoop_json env times cb 1 m hrc henv]; simp
  | otherError m => rw [grokLoop_other env times cb 1 m hrc henv]; simp

/-- The whole loop makes at most three attempts and its backoff sleeps
form an initial run of [2^1, 2^2] seconds. -/
theorem grokLoop_rc0 (env : Nat → Grok.AttemptOutcome) (times : Nat → ℚ)
    (cb : Grok.CircuitBreaker) :
    (Grok.grokLoop env times cb 0).attempts ≤ 3 ∧
    (Grok.grokLoop env times cb 0).sleeps <+: [2, 4] := by
  have hrc : (0 : Nat) < Grok.max_retries := by norm_num [Grok.max_retries]
  have hlt : (0 : Nat) + 1 < Grok.max_retries := by norm_num [Grok.max_retries]
  obtain ⟨ha1, hs1⟩ := grokLoop_rc1 env times cb
  cases henv : env 0 with
  | ok c r => rw [grokLoop_ok env times cb 0 c r hrc henv]; simp
  | httpError st b =>
    by_cases h5 : 500 ≤ st
    · rw [grokLoop_http_retry env times cb 0 st b hrc henv h5 hlt]
      refine ⟨by simpa using ha1, ?_⟩
      obtain ⟨t, ht⟩ := hs1
      exact ⟨t, by simp [← ht]⟩
    · rw [grokLoop_http_final env times cb 0 st b hrc henv (by tauto)]; simp
  | timeoutErr =>
    rw [grokLoop_timeout_retry env times cb 0 hrc henv hlt]
    refine ⟨by simpa using ha1, ?_⟩
    obtain ⟨t, ht⟩ := hs1
    exact ⟨t, by simp [← ht]⟩
  | clientError m =>
    rw [grokLoop_client_retry env times cb 0 m hrc henv hlt]
    refine ⟨by simpa using ha1, ?_⟩
    obtain ⟨t, ht⟩ := hs1
    exact ⟨t, by simp [← ht]⟩
  | jsonError m => rw [grokLoop_json env times cb 0 m hrc henv]; simp
  | otherError m => rw [grokLoop_other env times cb 0 m hrc henv]; simp

/-- The error string returned when the final attempt fails with the
given transient outcome (the source's three return statements on the
exhausted paths). -/
def grokExhaustMsg : Grok.AttemptOutcome → String
  | Grok.AttemptOutcome.httpError status body =>
      "Error calling Grok-4 API: " ++ toString status ++ " - " ++ body
  | Grok.AttemptOutcome.timeoutErr =>
      "Error: Grok-4 API request timed out after multiple retries"
  | Grok.AttemptOutcome.clientError msg => "Error calling Grok-4 API: " ++ msg
  | _ => ""

/-- A run whose first i attempts are transient failures and whose attempt
i gets a 200 returns the formatted response after i backoff sleeps, with
the breaker reset by exactly one record_success. -/
theorem grokLoop_success (env : Nat → Grok.AttemptOutcome) (times : Nat → ℚ)
    (cb : Grok.CircuitBreaker) (i : Nat) (c r : String) (hi : i < 3)
    (htrans : ∀ j, j < i → Grok.transientOutcome (env j) = true)
    (hok : env i = Grok.AttemptOutcome.ok c r) :
    Grok.grokLoop env times cb 0 =
      { result := Except.ok (Grok.formatGrokResponse c r),
        breaker := Grok.record_success cb,
        sleeps := List.take i [2, 4], attempts := i + 1 } := by
  have h03 : (0 : Nat) < Grok.max_retries := by norm_num [Grok.max_retries]
  have h13 : (1 : Nat) < Grok.max_retries := by norm_num [Grok.max_retries]
  have h23 : (2 : Nat) < Grok.max_retries := by norm_num [Grok.max_retries]
  interval_cases i
  · rw [grokLoop_ok env times cb 0 c r h03 hok]
    simp
  · have hstep1 : Grok.grokLoop env times cb 1 =
        { result := Except.ok (Grok.formatGrokResponse c r),
          breaker := Grok.record_success cb, sleeps := [], attempts := 1 } :=
      grokLoop_ok env times cb 1 c r h13 hok
    rcases transient_cases _ (htrans 0 (by norm_num)) with ⟨s0, b0, he0, hs0⟩ | he0 | ⟨m0, he0⟩
    · rw [grokLoop_http_retry env times cb 0 s0 b0 h03 he0 hs0 h13, hstep1]
      rfl
    · rw [grokLoop_timeout_retry env times cb 0 h03 he0 h13, hstep1]
      rfl
    · rw [grokLoop_client_retry env times cb 0 m0 h03 he0 h13, hstep1]
      rfl
  · have hstep2 : Grok.grokLoop env times cb 2 =
        { result := Except.ok (Grok.formatGrokResponse c r),
          breaker := Grok.record_success cb, sleeps := [], attempts := 1 } :=
      grokLoop_ok env times cb 2 c r h23 hok
    have hstep1 : Grok.grokLoop env times cb 1 =
        { result := Except.ok (Grok.formatGrokResponse c r),
          breaker := Grok.record_success cb, sleeps := [4], attempts := 2 } := by
      rcases transient_cases _ (htrans 1 (by norm_num)) with ⟨s1, b1, he1, hs1⟩ | he1 | ⟨m1, he1⟩
      · rw [grokLoop_http_retry env times cb 1 s1 b1 h13 he1 hs1 h23, hstep2]
        rfl
      · rw [grokLoop_timeout_retry env times cb 1 h13 he1 h23, hstep2]
        rfl
      · rw [grokLoop_client_retry env times cb 1 m1 h13 he1 h23, hstep2]
        rfl
    rcases transient_cases _ (htrans 0 (by norm_num)) with ⟨s0, b0, he0, hs0⟩ | he0 | ⟨m0, he0⟩
    · rw [grokLoop_http_retry env times cb 0 s0 b0 h03 he0 hs0 h13, hstep1]
      rfl
    · rw [grokLoop_timeout_retry env times cb 0 h03 he0 h13, hstep1]
      rfl
    · rw [grokLoop_client_retry env times cb 0 m0 h03 he0 h13, hstep1]
      rfl

/-- A run whose three attempts are all transient failures sleeps 2 then
4 seconds, records exactly one breaker failure (stamped at the time of
the final attempt) and returns the error string for the final outcome. -/
theorem grokLoop_exhaust (env : Nat → Grok.AttemptOutcome) (times : Nat → ℚ)
    (cb : Grok.CircuitBreaker)
    (htrans : ∀ j, j < 3 → Grok.transientOutcome (env j) = true) :
    Grok.grokLoop env times cb 0 =
      { result := Except.ok (grokExhaustMsg (env 2)),
        breaker := Grok.record_failure cb (times 2),
        sleeps := [2, 4], attempts := 3 } := by
  have h03 : (0 : Nat) < Grok.max_retries := by norm_num [Grok.max_retries]
  have h13 : (1 : Nat) < Grok.max_retries := by norm_num [Grok.max_retries]
  have h23 : (2 : Nat) < Grok.max_retries := by norm_num [Grok.max_retries]
  have hn3 : ¬ (2 : Nat) + 1 < Grok.max_retries := by norm_num [Grok.max_retries]
  have hstep2 : Grok.grokLoop env times cb 2 =
      { result := Except.ok (grokExhaustMsg (env 2)),
        breaker := Grok.record_failure cb (times 2),
        sleeps := [], attempts := 1 } := by
    rcases transient_cases _ (htrans 2 (by norm_num)) with ⟨s2, b2, he2, hs2⟩ | he2 | ⟨m2, he2⟩
    · rw [grokLoop_http_final env times cb 2 s2 b2 h23 he2 (by tauto), he2]
      rfl
    · rw [grokLoop_timeout_final env times cb 2 h23 he2 hn3, he2]
      rfl
    · rw [grokLoop_client_final env times cb 2 m2 h23 he2 hn3, he2]
      rfl
  have hstep1 : Grok.grokLoop env times cb 1 =
      { result := Except.ok (grokExhaustMsg (env 2)),
        breaker := Grok.record_failure cb (times 2),
        sleeps := [4], attempts := 2 } := by
    rcases transient_cases _ (htrans 1 (by norm_num)) with ⟨s1, b1, he1, hs1⟩ | he1 | ⟨m1, he1⟩
    · rw [grokLoop_http_retry env times cb 1 s1 b1 h13 he1 hs1 h23, hstep2]
      rfl
    · rw [grokLoop_timeout_retry env times cb 1 h13 he1 h23, hstep2]
      rfl
    · rw [grokLoop_client_retry env times cb 1 m1 h13 he1 h23, hstep2]
      rfl
  rcases transient_cases _ (htrans 0 (by norm_num)) with ⟨s0, b0, he0, hs0⟩ | he0 | ⟨m0, he0⟩
  · rw [grokLoop_http_retry env times cb 0 s0 b0 h03 he0 hs0 h13, hstep1]
    rfl
  · rw [grokLoop_timeout_retry env times cb 0 h03 he0 h13, hstep1]
    rfl
  · rw [grokLoop_client_retry env times cb 0 m0 h03 he0 h13, hstep1]
    rfl

/-- C3: call_grok_api (i) never makes more than 3 attempts; (ii) its
backoff sleeps are 2^attempt seconds before each retry (an initial run
of [2, 4]); (iii) any successful attempt yields the formatted response
and records one breaker success, leaving the breaker closed with zero
failure count; (iv) when all three attempts fail transiently it records
exactly one breaker failure and returns the descriptive error string for
the final outcome instead of raising. -/
theorem call_grok_api_behavior :
    (∀ (cb : Grok.CircuitBreaker) (now : ℚ) (key : Option String)
        (env : Nat → Grok.AttemptOutcome) (times : Nat → ℚ),
        (Grok.call_grok_api cb now key env times).attempts ≤ 3) ∧
    (∀ (cb : Grok.CircuitBreaker) (now : ℚ) (key : Option String)
        (env : Nat → Grok.AttemptOutcome) (times : Nat → ℚ),
        (Grok.call_grok_api cb now key env times).sleeps <+: [2, 4]) ∧
    (∀ (cb : Grok.CircuitBreaker) (now : ℚ) (key : String)
        (env : Nat → Grok.AttemptOutcome) (times : Nat → ℚ) (i : Nat)
        (c r : String),
        (Grok.can_execute cb now).1 = true → i < 3 →
        (∀ j, j < i → Grok.transientOutcome (env j) = true) →
        env i = Grok.AttemptOutcome.ok c r →
        Grok.call_grok_api cb now (some key) env times =
          { result := Except.ok (Grok.formatGrokResponse c r),
            breaker := Grok.record_success (Grok.can_execute cb now).2,
            sleeps := List.take i [2, 4], attempts := i + 1 } ∧
        (Grok.call_grok_api cb now (some key) env times).breaker.state
          = Grok.BState.closed ∧
        (Grok.call_grok_api cb now (some key) env times).breaker.failure_count = 0) ∧
    (∀ (cb : Grok.CircuitBreaker) (now : ℚ) (key : String)
        (env : Nat → Grok.AttemptOutcome) (times : Nat → ℚ),
        (Grok.can_execute cb now).1 = true →
        (∀ j, j < 3 → Grok.transientOutcome (env j) = true) →
        Grok.call_grok_api cb now (some key) env times =
          { result := Except.ok (grokExhaustMsg (env 2)),
            breaker := Grok.record_failure (Grok.can_execute cb now).2 (times 2),
            sleeps := [2, 4], attempts := 3 }) := by
  have hcall : ∀ (cb : Grok.CircuitBreaker) (now : ℚ) (key : String)
      (env : Nat → Grok.AttemptOutcome) (times : Nat → ℚ),
      (Grok.can_execute cb now).1 = true →
      Grok.call_grok_api cb now (some key) env times =
        Grok.grokLoop env times (Grok.can_execute cb now).2 0 := by
    intro cb now key env times hce
    simp [Grok.call_grok_api, hce]
  refine ⟨?_, ?_, ?_, ?_⟩
  · intro cb now key env times
    by_cases hce : (Grok.can_execute cb now).1 = false
    · simp [Grok.call_grok_api, hce]
    · cases key with
      | none => simp [Grok.call_grok_api, hce]
      | some k =>
        rw [hcall cb now k env times (by simpa using hce)]
        exact (grokLoop_rc0 env times _).1
  · intro cb now key env times
    by_cases hce : (Grok.can_execute cb now).1 = false
    · simp [Grok.call_grok_api, hce]
    · cases key with
      | none => simp [Grok.call_grok_api, hce]
      | some k =>
        rw [hcall cb now k env times (by simpa using hce)]
        exact (grokLoop_rc0 env times _).2
  · intro cb now key env times i c r hce hi htrans hok
    rw [hcall cb now key env times hce,
        grokLoop_success env times _ i c r hi htrans hok]
    exact ⟨rfl, rfl, rfl⟩
  · intro cb now key env times hce htrans
    rw [hcall cb now key env times hce, grokLoop_exhaust env times _ htrans]

/-- Witness for C3 at a concrete run: a fresh closed breaker, every
attempt timing out; the call makes 3 attempts, sleeps 2 then 4 seconds,
returns the timeout error text and records exactly one failure. -/
theorem call_grok_api_behavior_witness :
    Grok.call_grok_api (Grok.CircuitBreaker.init 3 60) 0 (some "k")
        (fun _ => Grok.AttemptOutcome.timeoutErr) (fun _ => 7) =
      { result := Except.ok "Error: Grok-4 API request timed out after multiple retries",
        breaker := Grok.record_failure (Grok.CircuitBreaker.init 3 60) 7,
        sleeps := [2, 4], attempts := 3 } := by
  have h := call_grok_api_behavior.2.2.2 (Grok.CircuitBreaker.init 3 60) 0 "k"
    (fun _ => Grok.AttemptOutcome.timeoutErr) (fun _ => 7) rfl
    (fun j _ => rfl)
  exact h

/-- A Python == comparison of a non-matching name against a string
literal is false. -/
theorem isStrEq_false_of_ne (nm : Option Json) (t : String)
    (h : ∀ s, nm = some (Json.str s) → s ≠ t) : isStrEq nm t = false := by
  cases nm with
  | none => rfl
  | some j =>
    cases j with
    | str s => exact beq_eq_false_iff_ne.mpr (h s rfl)
    | null => rfl
    | bool b => rfl
    | int n => rfl
    | float q => rfl
    | arr l => rfl
    | obj l => rfl

/-- C1 (amended): an input line on which json.loads fails makes
receive_message return None, which the dispatch loop treats exactly like
stream close: it exits cleanly, emitting nothing for that line or for
any line after it; at end of stream it likewise exits having emitted
nothing. -/
theorem undecodable_line_exits (sd : ServerDef)
    (json_loads : String → Option Json) (l : String) (rest : List String)
    (h : json_loads l = none) :
    runServer sd json_loads (l :: rest) = [] ∧
    runServer sd json_loads [] = [] := by
  constructor
  · simp [runServer, h]
  · rfl

/-- A bad tools/call request naming an unregistered tool. -/
def reqBadTool : Json :=
  Json.obj [("id", Json.int 1), ("method", Json.str "tools/call"),
    ("params", Json.obj [("name", Json.str "bogus")])]

/-- A well-formed initialize request. -/
def reqInitW : Json :=
  Json.obj [("id", Json.int 2), ("method", Json.str "initialize")]

/-- A concrete instance of json.loads over a three-line vocabulary: line
"A" holds the serialized bad tools/call request, line "B" the serialized
initialize request, and any other line (such as "?") is invalid JSON. -/
def decodeW : String → Option Json :=
  fun s => if s = "A" then some reqBadTool
    else if s = "B" then some reqInitW
    else none

/-- C1 counterexample: the stream whose first line is invalid JSON and
whose second line is a well-formed initialize request. The loop emits
nothing at all — the valid second request is never answered — although
the same second line alone is answered normally; the claimed
skip-and-continue behavior does not hold. -/
theorem undecodable_line_cex :
    runServer (Sleep.sleepServer envW 0) decodeW ["?", "B"] = [] ∧
    runServer (Sleep.sleepServer envW 0) decodeW ["B"] =
      [⟨some (Json.int 2), RpcOutcome.result (RpcResult.initR Sleep.sleepInit)⟩] :=
  ⟨rfl, rfl⟩

/-- Witness for the amended C1 at the concrete undecodable line "?". -/
theorem undecodable_line_exits_witness :
    runServer (Sleep.sleepServer envW 0) decodeW ["?", "B"] = [] ∧
    runServer (Sleep.sleepServer envW 0) decodeW [] = [] :=
  undecodable_line_exits (Sleep.sleepServer envW 0) decodeW "?" ["B"] rfl

/-- C5: a tools/call request whose params.name is not a registered tool
is answered with an error response carrying code -32603 and the
exception message "Unknown tool: <name>", the loop does not terminate,
and the remaining stream is processed exactly as if the bad request had
not occurred (so the next well-formed request is answered normally). -/
theorem unknown_tool_error_continues (env : Sleep.SleepEnv) (fuel : Nat)
    (json_loads : String → Option Json) (l : String) (rest : List String)
    (fields pfields : List (String × Json))
    (hdec : json_loads l = some (Json.obj fields))
    (hmethod : lookupField fields "method" = some (Json.str "tools/call"))
    (hparams : (lookupField fields "params").getD (Json.obj [])
        = Json.obj pfields)
    (hname : ∀ s, lookupField pfields "name" = some (Json.str s) →
        s ∉ ["sleep_until_complete", "sleep_until_command_complete", "quick_check"]) :
    runServer (Sleep.sleepServer env fuel) json_loads (l :: rest) =
      ⟨lookupField fields "id",
        RpcOutcome.error (-32603)
          ("Unknown tool: " ++ pyFormatOpt (lookupField pfields "name"))⟩
      :: runServer (Sleep.sleepServer env fuel) json_loads rest := by
  have h1 : isStrEq (lookupField pfields "name") "sleep_until_complete" = false :=
    isStrEq_false_of_ne _ _ (fun s hs => by
      have := hname s hs
      simp at this
      exact this.1)
  have h2 : isStrEq (lookupField pfields "name") "sleep_until_command_complete" = false :=
    isStrEq_false_of_ne _ _ (fun s hs => by
      have := hname s hs
      simp at this
      exact this.2.1)
  have h3 : isStrEq (lookupField pfields "name") "quick_check" = false :=
    isStrEq_false_of_ne _ _ (fun s hs => by
      have := hname s hs
      simp at this
      exact this.2.2)
  simp only [isStrEq] at h1 h2 h3
  simp only [runServer, hdec]
  simp [handleRequest, jsonLookup, hmethod, hparams, Sleep.sleepServer,
    Sleep.handle_tools_call, h1, h2, h3, pyGet, isStrEq]
  rfl

/-- Witness for C5: the bad request (tool name "bogus") is answered with
the -32603 error and the following initialize request is answered
normally. -/
theorem unknown_tool_error_continues_witness :
    runServer (Sleep.sleepServer envW 0) decodeW ["A", "B"] =
      [⟨some (Json.int 1), RpcOutcome.error (-32603) "Unknown tool: bogus"⟩,
       ⟨some (Json.int 2), RpcOutcome.result (RpcResult.initR Sleep.sleepInit)⟩] := by
  have h := unknown_tool_error_continues envW 0 decodeW "A" ["B"]
    [("id", Json.int 1), ("method", Json.str "tools/call"),
     ("params", Json.obj [("name", Json.str "bogus")])]
    [("name", Json.str "bogus")]
    rfl rfl rfl
    (by
      intro s hs
      simp [lookupField] at hs
      subst hs
      decide)
  rw [h]
  rfl

/-- C6 (code bug in the grok proxy): a tools/list request to the sleep
and gpt5 servers returns the full registered descriptor list in
registration order as a result, but the grok proxy's handle_tools_list
evaluates the undefined Python name `false` and raises NameError, so its
tools/list request is answered with a -32603 error response instead of
the descriptor list, for every tools/call handler and every request id. -/
theorem tools_list_registration (call call2 : Option Json → Json → Option (Except String CallContent))
    (env : Sleep.SleepEnv) (fuel : Nat) (fields : List (String × Json))
    (hmethod : lookupField fields "method" = some (Json.str "tools/list")) :
    handleRequest (Grok.grokServer call) (Json.obj fields) =
      some ⟨lookupField fields "id",
        RpcOutcome.error (-32603) "name 'false' is not defined"⟩ ∧
    handleRequest (Sleep.sleepServer env fuel) (Json.obj fields) =
      some ⟨lookupField fields "id",
        RpcOutcome.result (RpcResult.toolsList Sleep.sleep_tools)⟩ ∧
    handleRequest (Gpt5.gpt5Server call2) (Json.obj fields) =
      some ⟨lookupField fields "id",
        RpcOutcome.result (RpcResult.toolsList Gpt5.gpt5_tools)⟩ := by
  refine ⟨?_, ?_, ?_⟩
  · simp [handleRequest, jsonLookup, hmethod, Grok.grokServer,
      Grok.grok_handle_tools_list, isStrEq]
    rfl
  · simp [handleRequest, jsonLookup, hmethod, Sleep.sleepServer, isStrEq]
    rfl
  · simp [handleRequest, jsonLookup, hmethod, Gpt5.gpt5Server, isStrEq]
    rfl

/-- Witness for C6 at a concrete tools/list request with id 3 (the grok
server answers with the NameError text; sleep and gpt5 answer with their
descriptor lists). -/
theorem tools_list_registration_witness :
    handleRequest (Grok.grokServer (fun _ _ => none))
        (Json.obj [("id", Json.int 3), ("method", Json.str "tools/list")]) =
      some ⟨some (Json.int 3),
        RpcOutcome.error (-32603) "name 'false' is not defined"⟩ ∧
    handleRequest (Sleep.sleepServer envW 0)
        (Json.obj [("id", Json.int 3), ("method", Json.str "tools/list")]) =
      some ⟨some (Json.int 3),
        RpcOutcome.result (RpcResult.toolsList Sleep.sleep_tools)⟩ := by
  have h := tools_list_registration (fun _ _ => none) (fun _ _ => none)
    envW 0 [("id", Json.int 3), ("method", Json.str "tools/list")] rfl
  exact ⟨h.1, h.2.1⟩
